import Mathlib

/-!
Verification of the tcp-comm repository (two firmware binaries: an
initiator, `src/client/src/main.rs`, and a responder,
`src/server/src/main.rs`).  The connection-lifecycle state machine is
shallowly embedded: each phase of the two `main` loops, the responder's
join loop and the initiator's `connection` task become pure Lean
functions over explicit state, with the environment's answers (connect
or accept outcome, read and write results, wifi events, join statuses)
supplied as input values.  Side effects (log lines, timer sleeps,
indicator writes, socket operations) are recorded as an event trace.
-/

namespace TcpComm

/-- Log lines emitted by the two programs.  Each constructor stands for
one `log::...!`/`println!` call site; `rxd` carries the bytes whose
decoded text is printed. -/
inductive LogMsg
  | addrInfo
  | connecting
  | connectedToEndpoint
  | connectError
  | noConnection5s
  | listening
  | receivedConnection
  | acceptError
  | readEof
  | readError
  | writeError
  | connClosed
  | rxd (bytes : List Nat)
  | joinFailed
  | startingWifi
  | wifiStarted
  | aboutToConnect
  | wifiConnected
  | wifiConnectFailed
deriving DecidableEq

/-- Observable effects of the embedded programs, in program order. -/
inductive Event
  | log (m : LogMsg)
  | sleep (ms : Nat)
  | gpioSet (v : Bool)
  | setSockTimeout (ms : Nat)
  | sockRead
  | sockWrite (bytes : List Nat)
  | waitDisconnect
  | newSocket
deriving DecidableEq

/-- A socket read or a socket write (the operations the idle timeout
bounds). -/
def isIoEv : Event → Bool
  | .sockRead => true
  | .sockWrite _ => true
  | _ => false

/-- State of the indicator (cyw43 gpio 0) after a list of events, given
its state before them. -/
def gpioAfter (init : Bool) (evs : List Event) : Bool :=
  evs.foldl (fun g e => match e with | .gpioSet v => v | _ => g) init

/-- Every socket read/write in the trace happens while the socket's
per-operation timeout is armed at exactly 5000 ms.  `armed` is the
timeout state carried into the trace (`none` = no timeout armed, the
state of a freshly created `TcpSocket`). -/
def armedBefore (armed : Option Nat) : List Event → Bool
  | [] => true
  | e :: rest =>
    if isIoEv e then (armed == some 5000) && armedBefore armed rest
    else
      match e with
      | .setSockTimeout ms => armedBefore (some ms) rest
      | _ => armedBefore armed rest

/-- Whether an event is the `About to connect...` line the initiator's
`connection` task prints immediately before each association attempt. -/
def isAttempt : Event → Bool
  | .log .aboutToConnect => true
  | _ => false

/-- UTF-8 continuation byte (0x80 ..= 0xBF). -/
def isCont (b : Nat) : Bool := decide (0x80 ≤ b ∧ b ≤ 0xBF)

/-- Embedding of `core::str::from_utf8` validity (the check whose
failure `.unwrap()` turns into a panic): standard RFC 3629 table as
implemented by Rust's core library. -/
def utf8Valid : List Nat → Bool
  | [] => true
  | b :: rest =>
    if b ≤ 0x7F then utf8Valid rest
    else if 0xC2 ≤ b ∧ b ≤ 0xDF then
      match rest with
      | b1 :: r => isCont b1 && utf8Valid r
      | [] => false
    else if b = 0xE0 then
      match rest with
      | b1 :: b2 :: r => decide (0xA0 ≤ b1 ∧ b1 ≤ 0xBF) && isCont b2 && utf8Valid r
      | _ => false
    else if (0xE1 ≤ b ∧ b ≤ 0xEC) ∨ b = 0xEE ∨ b = 0xEF then
      match rest with
      | b1 :: b2 :: r => isCont b1 && isCont b2 && utf8Valid r
      | _ => false
    else if b = 0xED then
      match rest with
      | b1 :: b2 :: r => decide (0x80 ≤ b1 ∧ b1 ≤ 0x9F) && isCont b2 && utf8Valid r
      | _ => false
    else if b = 0xF0 then
      match rest with
      | b1 :: b2 :: b3 :: r =>
        decide (0x90 ≤ b1 ∧ b1 ≤ 0xBF) && isCont b2 && isCont b3 && utf8Valid r
      | _ => false
    else if 0xF1 ≤ b ∧ b ≤ 0xF3 then
      match rest with
      | b1 :: b2 :: b3 :: r => isCont b1 && isCont b2 && isCont b3 && utf8Valid r
      | _ => false
    else if b = 0xF4 then
      match rest with
      | b1 :: b2 :: b3 :: r =>
        decide (0x80 ≤ b1 ∧ b1 ≤ 0x8F) && isCont b2 && isCont b3 && utf8Valid r
      | _ => false
    else false

/-- The initiator's fixed payload, the ASCII bytes of `Hello`
(`socket.write_all(b"Hello")`). -/
def helloBytes : List Nat := [72, 101, 108, 108, 111]

/-- Effect of `socket.read(&mut buf)` writing `data` into the front of
the scratch buffer: the first `data.length` bytes are replaced, the rest
keep their old content. -/
def overwrite (buf data : List Nat) : List Nat := data ++ buf.drop data.length

/-- Outcome of `with_timeout(5 s, connect/accept)`: `success` is
`Ok(Ok(()))`, `failure` is `Ok(Err(e))`, `timeout` is `Err(TimeoutError)`. -/
inductive EstablishResult
  | success
  | failure
  | timeout
deriving DecidableEq

/-- Environment's answer to one `socket.read`: `ok []` is the
zero-length read (EOF), `ok (b :: bs)` delivers bytes, `error` is a read
error. -/
inductive ReadResult
  | ok (data : List Nat)
  | error
deriving DecidableEq

/-- Environment's answer to one `socket.write_all`. -/
inductive WriteResult
  | ok
  | error
deriving DecidableEq

/-- How a loop iteration ended: `estFailed` = connect/accept did not
succeed (the `continue` paths), `broke` = the inner exchange loop hit
`break`, `panicked` = `from_utf8(..).unwrap()` aborted the process,
`ranOut` = the supplied environment script ended with the inner loop
still running. -/
inductive ExitKind
  | estFailed
  | broke
  | panicked
  | ranOut
deriving DecidableEq

/-- Result of running an inner exchange loop: its event trace, the final
scratch-buffer contents, and how it ended. -/
structure InnerOut where
  events : List Event
  scratch : List Nat
  ended : ExitKind
deriving DecidableEq

/-- The three buffers allocated once before the outer loop (`rx_buffer`,
`tx_buffer`, `buf`), modelled by their contents. -/
structure Buffers where
  rx : List Nat
  tx : List Nat
  scratch : List Nat
deriving DecidableEq

/-- Logical state of a `TcpSocket`: the two backing slices it was built
over, how many received bytes are readable, how many written bytes are
queued, and the armed per-operation timeout. -/
structure Socket where
  rxStorage : List Nat
  txStorage : List Nat
  rxAvail : Nat
  txQueued : Nat
  timeoutMs : Option Nat
deriving DecidableEq

/-- Modelled from the spec and the `TcpSocket::new(stack, rx, tx)` call:
a new socket wraps the two given slices as fresh, empty ring buffers —
no readable content, nothing queued, no timeout armed — whatever bytes
the slices still hold. -/
def Socket.new (rx tx : List Nat) : Socket := ⟨rx, tx, 0, 0, none⟩

/-- Establish-phase result for the responder: events, whether the match
fell through to the exchange phase, and the `led_status` variable
afterwards. -/
structure EstOut where
  events : List Event
  proceed : Bool
  led : Bool
deriving DecidableEq

/-- Initiator establish phase (`client/src/main.rs:165-182`): success
arms the 5 s idle timeout and proceeds; a connect error logs and sleeps
1000 ms before `continue`; a timeout logs and `continue`s at once. -/
def clientEstablish : EstablishResult → List Event × Bool
  | .success => ([Event.setSockTimeout 5000, Event.log .connectedToEndpoint], true)
  | .failure => ([Event.log .connectError, Event.sleep 1000], false)
  | .timeout => ([Event.log .noConnection5s], false)

/-- Responder establish phase (`server/src/main.rs:189-212`): success
arms the 5 s idle timeout, logs the peer and sets the indicator on; an
accept error or a timeout logs, writes the current `led_status` to the
indicator, flips `led_status` and `continue`s without sleeping. -/
def serverEstablish (led : Bool) : EstablishResult → EstOut
  | .success =>
    ⟨[Event.setSockTimeout 5000, Event.log .receivedConnection, Event.gpioSet true], true, led⟩
  | .failure => ⟨[Event.log .acceptError, Event.gpioSet led], false, !led⟩
  | .timeout => ⟨[Event.log .noConnection5s, Event.gpioSet led], false, !led⟩

/-- Initiator inner exchange loop (`client/src/main.rs:186-208`): write
`Hello` (break on error), read into the scratch buffer (EOF or error
break), print the decoded bytes (panic when not UTF-8), sleep 1000 ms,
repeat.  The environment script supplies one (write result, read
result) pair per iteration. -/
def clientInner (scratch : List Nat) : List (WriteResult × ReadResult) → InnerOut
  | [] => ⟨[], scratch, .ranOut⟩
  | (w, r) :: rest =>
    match w with
    | .error => ⟨[Event.sockWrite helloBytes, Event.log .writeError], scratch, .broke⟩
    | .ok =>
      match r with
      | .error =>
        ⟨[Event.sockWrite helloBytes, Event.sockRead, Event.log .readError], scratch, .broke⟩
      | .ok [] =>
        ⟨[Event.sockWrite helloBytes, Event.sockRead, Event.log .readEof], scratch, .broke⟩
      | .ok (b :: bs) =>
        if utf8Valid ((overwrite scratch (b :: bs)).take (b :: bs).length) then
          let o := clientInner (overwrite scratch (b :: bs)) rest
          ⟨[Event.sockWrite helloBytes, Event.sockRead,
            Event.log (.rxd ((overwrite scratch (b :: bs)).take (b :: bs).length)),
            Event.sleep 1000] ++ o.events, o.scratch, o.ended⟩
        else
          ⟨[Event.sockWrite helloBytes, Event.sockRead], overwrite scratch (b :: bs), .panicked⟩

/-- Responder inner exchange loop (`server/src/main.rs:214-249`): read
into the scratch buffer (EOF or error break), log the decoded bytes
(panic when not UTF-8), write the identical slice back (break on write
error), repeat.  The environment script supplies one (read result,
write result) pair per iteration. -/
def serverInner (scratch : List Nat) : List (ReadResult × WriteResult) → InnerOut
  | [] => ⟨[], scratch, .ranOut⟩
  | (r, w) :: rest =>
    match r with
    | .error => ⟨[Event.sockRead, Event.log .readError, Event.log .connClosed], scratch, .broke⟩
    | .ok [] => ⟨[Event.sockRead, Event.log .readEof], scratch, .broke⟩
    | .ok (b :: bs) =>
      if utf8Valid ((overwrite scratch (b :: bs)).take (b :: bs).length) then
        match w with
        | .ok =>
          let o := serverInner (overwrite scratch (b :: bs)) rest
          ⟨[Event.sockRead,
            Event.log (.rxd ((overwrite scratch (b :: bs)).take (b :: bs).length)),
            Event.sockWrite ((overwrite scratch (b :: bs)).take (b :: bs).length)] ++ o.events,
           o.scratch, o.ended⟩
        | .error =>
          ⟨[Event.sockRead,
            Event.log (.rxd ((overwrite scratch (b :: bs)).take (b :: bs).length)),
            Event.sockWrite ((overwrite scratch (b :: bs)).take (b :: bs).length),
            Event.log .writeError, Event.log .connClosed], overwrite scratch (b :: bs), .broke⟩
      else ⟨[Event.sockRead], overwrite scratch (b :: bs), .panicked⟩

/-- One outer-loop iteration's result: events, buffer contents
afterwards, and how the iteration ended. -/
structure IterOut where
  events : List Event
  bufs : Buffers
  ended : ExitKind
deriving DecidableEq

/-- One outer-loop iteration's result for the responder: also carries
`led_status`. -/
structure ServerIterOut where
  events : List Event
  led : Bool
  bufs : Buffers
  ended : ExitKind
deriving DecidableEq

/-- One iteration of the initiator's outer loop
(`client/src/main.rs:150-209`): build a fresh socket over the shared
buffers, log the v4 config, attempt the bounded connect, and on success
run the exchange loop. -/
def clientIter (bufs : Buffers) (est : EstablishResult)
    (io : List (WriteResult × ReadResult)) : IterOut :=
  let pre := [Event.newSocket, Event.log .addrInfo, Event.log .connecting]
  let e := clientEstablish est
  if e.2 then
    let o := clientInner bufs.scratch io
    ⟨pre ++ e.1 ++ o.events, ⟨bufs.rx, bufs.tx, o.scratch⟩, o.ended⟩
  else ⟨pre ++ e.1, bufs, .estFailed⟩

/-- One iteration of the responder's outer loop
(`server/src/main.rs:173-250`): build a fresh socket over the shared
buffers, log the v4 config, attempt the bounded accept, and on success
run the exchange loop. -/
def serverIter (led : Bool) (bufs : Buffers) (est : EstablishResult)
    (io : List (ReadResult × WriteResult)) : ServerIterOut :=
  let pre := [Event.newSocket, Event.log .addrInfo, Event.log .listening]
  let e := serverEstablish led est
  if e.proceed then
    let o := serverInner bufs.scratch io
    ⟨pre ++ e.events ++ o.events, e.led, ⟨bufs.rx, bufs.tx, o.scratch⟩, o.ended⟩
  else ⟨pre ++ e.events, e.led, bufs, .estFailed⟩

/-- Environment script for one initiator outer-loop iteration. -/
structure ClientEnv where
  est : EstablishResult
  io : List (WriteResult × ReadResult)

/-- Environment script for one responder outer-loop iteration. -/
structure ServerEnv where
  est : EstablishResult
  io : List (ReadResult × WriteResult)

/-- The initiator's outer loop run over a finite environment script,
threading the once-allocated buffers; a panic aborts the run. -/
def clientRun (bufs : Buffers) : List ClientEnv → List Event × Buffers
  | [] => ([], bufs)
  | env :: rest =>
    let o := clientIter bufs env.est env.io
    match o.ended with
    | .panicked => (o.events, o.bufs)
    | _ =>
      let p := clientRun o.bufs rest
      (o.events ++ p.1, p.2)

/-- The responder's outer loop run over a finite environment script,
threading `led_status` and the once-allocated buffers; a panic aborts
the run. -/
def serverRun (led : Bool) (bufs : Buffers) : List ServerEnv → List Event × Bool × Buffers
  | [] => ([], led, bufs)
  | env :: rest =>
    let o := serverIter led bufs env.est env.io
    match o.ended with
    | .panicked => (o.events, o.led, o.bufs)
    | _ =>
      let p := serverRun o.led o.bufs rest
      (o.events ++ p.1, p.2.1, p.2.2)

/-- Outcome of one `control.join(..)` call: `ok`, or `err s` carrying
the numeric failure status. -/
inductive JoinResult
  | ok
  | err (status : Nat)
deriving DecidableEq

/-- One arm of the responder's join `match`
(`server/src/main.rs:137-147`): success sets the indicator on and exits
the loop; a failure with status below 16 sets the indicator off and
logs; any other failure does nothing.  The Bool is whether the loop
breaks. -/
def joinAttempt : JoinResult → List Event × Bool
  | .ok => ([Event.gpioSet true], true)
  | .err s => (if s < 16 then [Event.gpioSet false, Event.log .joinFailed] else [], false)

/-- The responder's join loop (`server/src/main.rs:136-149`) over a
finite script of join outcomes: processes outcomes until the first
success.  The Bool is whether the loop exited (broke on a success)
within the script. -/
def joinLoop : List JoinResult → List Event × Bool
  | [] => ([], false)
  | j :: rest =>
    let a := joinAttempt j
    if a.2 then (a.1, true)
    else (a.1 ++ (joinLoop rest).1, (joinLoop rest).2)

/-- Result of `esp_wifi::wifi::wifi_state()` as seen by the initiator's
`connection` task: associated, or anything else. -/
inductive WifiSt
  | staConnected
  | otherSt
deriving DecidableEq

/-- Outcome of one `controller.connect_async()` call. -/
inductive ConnResult
  | ok
  | err
deriving DecidableEq

/-- One iteration of the initiator's `connection` task loop
(`client/src/main.rs:56-86`): when already associated, suspend on the
disconnect event then sleep 5000 ms; start the radio if not started;
print `About to connect...`; attempt association, sleeping 5000 ms on
failure.  Returns the events and the `is_started` state afterwards;
the body has no exit path. -/
def connectionBody (ws : WifiSt) (started : Bool) (cr : ConnResult) : List Event × Bool :=
  ((match ws with
    | .staConnected => [Event.waitDisconnect, Event.sleep 5000]
    | .otherSt => []) ++
   (if started then [] else [Event.log .startingWifi, Event.log .wifiStarted]) ++
   [Event.log .aboutToConnect] ++
   (match cr with
    | .ok => [Event.log .wifiConnected]
    | .err => [Event.log .wifiConnectFailed, Event.sleep 5000]), true)

/-- The `connection` task run over a finite script of (wifi state,
connect outcome) pairs: one loop iteration per script element; the loop
has no break, so every element is processed. -/
def connectionRun (started : Bool) : List (WifiSt × ConnResult) → List Event
  | [] => []
  | (ws, cr) :: rest =>
    let b := connectionBody ws started cr
    b.1 ++ connectionRun b.2 rest

/-- A DHCP-assigned v4 snapshot: address, gateway, name-resolution
servers (addresses abstracted to numbers). -/
structure NetworkConfig where
  address : Nat
  gateway : Option Nat
  dnsServers : List Nat
deriving DecidableEq

/-- The network stack as the session task observes it: the v4
configuration snapshot as a function of how many 100 ms polls have
elapsed. -/
structure NetStack where
  cfg : Nat → Option NetworkConfig

/-- Predicate `stack.is_config_up()` at poll `t`: modelled (embassy-net)
as the v4 configuration being populated. -/
def NetStack.isConfigUp (s : NetStack) (t : Nat) : Bool := (s.cfg t).isSome

/-- Query `stack.config_v4()` at poll `t`. -/
def NetStack.configV4 (s : NetStack) (t : Nat) : Option NetworkConfig := s.cfg t

/-- The DHCP wait loop (`while !stack.is_config_up() { Timer::after_millis(100) }`)
with explicit fuel: returns the total milliseconds slept and the poll
index at which the predicate was first true, or `none` when the fuel ran
out first. -/
def waitForConfig (s : NetStack) : Nat → Nat → Option (Nat × Nat)
  | 0, _ => none
  | fuel + 1, t =>
    if s.isConfigUp t then some (0, t)
    else
      match waitForConfig s fuel (t + 1) with
      | some (ms, tf) => some (ms + 100, tf)
      | none => none

/-- A concrete stack whose configuration comes up at the third poll,
used to exercise the DHCP wait. -/
def exStack : NetStack :=
  ⟨fun t => if t < 2 then none else some ⟨1, some 2, [3]⟩⟩

/-- Reading `d` into the front of a buffer and slicing back `d.length`
bytes returns exactly `d` (`&buf[..n]` holds the received bytes). -/
theorem overwrite_take (buf d : List Nat) : (overwrite buf d).take d.length = d := by
  simp [overwrite, List.take_left]

/-- The join loop exits exactly when some scripted attempt succeeds. -/
theorem joinLoop_exits_iff (script : List JoinResult) :
    (joinLoop script).2 = true ↔ JoinResult.ok ∈ script := by
  induction script with
  | nil => simp [joinLoop]
  | cons j rest ih =>
    cases j with
    | ok => simp [joinLoop, joinAttempt]
    | err s => simp [joinLoop, joinAttempt, ih]

/-- C1: when establish is not a success — the 5000 ms timeout elapsing
logs, discards the session (`estFailed`, no exchange phase) and restarts
the outer loop with no backoff sleep, for both nodes; a non-timeout
error makes the initiator sleep 1000 ms before restarting, while the
responder writes the current `led_status` to the indicator, flips it,
and restarts without any sleep. -/
theorem c1_establish_failure_paths :
    (clientEstablish .timeout = ([Event.log .noConnection5s], false)) ∧
    (clientEstablish .failure = ([Event.log .connectError, Event.sleep 1000], false)) ∧
    (∀ led, serverEstablish led .timeout =
      ⟨[Event.log .noConnection5s, Event.gpioSet led], false, !led⟩) ∧
    (∀ led, serverEstablish led .failure =
      ⟨[Event.log .acceptError, Event.gpioSet led], false, !led⟩) ∧
    (∀ bufs io ms, Event.sleep ms ∉ (clientIter bufs .timeout io).events) ∧
    (∀ led bufs io ms, Event.sleep ms ∉ (serverIter led bufs .timeout io).events) ∧
    (∀ led bufs io ms, Event.sleep ms ∉ (serverIter led bufs .failure io).events) ∧
    (∀ bufs io, (clientIter bufs .timeout io).ended = .estFailed) ∧
    (∀ bufs io, (clientIter bufs .failure io).ended = .estFailed) ∧
    (∀ led bufs io, (serverIter led bufs .timeout io).ended = .estFailed) ∧
    (∀ led bufs io, (serverIter led bufs .failure io).ended = .estFailed) ∧
    (∀ bufs io envs, clientRun bufs (⟨.timeout, io⟩ :: envs) =
      ((clientIter bufs .timeout io).events ++ (clientRun bufs envs).1,
       (clientRun bufs envs).2)) ∧
    (∀ bufs io envs, clientRun bufs (⟨.failure, io⟩ :: envs) =
      ((clientIter bufs .failure io).events ++ (clientRun bufs envs).1,
       (clientRun bufs envs).2)) ∧
    (∀ led bufs io envs, serverRun led bufs (⟨.timeout, io⟩ :: envs) =
      ((serverIter led bufs .timeout io).events ++ (serverRun (!led) bufs envs).1,
       (serverRun (!led) bufs envs).2)) ∧
    (∀ led bufs io envs, serverRun led bufs (⟨.failure, io⟩ :: envs) =
      ((serverIter led bufs .failure io).events ++ (serverRun (!led) bufs envs).1,
       (serverRun (!led) bufs envs).2)) := by
  refine ⟨rfl, rfl, fun led => rfl, fun led => rfl, ?_, ?_, ?_, ?_, ?_, ?_, ?_, ?_, ?_, ?_, ?_⟩
  · intro bufs io ms
    simp [clientIter, clientEstablish]
  · intro led bufs io ms
    simp [serverIter, serverEstablish]
  · intro led bufs io ms
    simp [serverIter, serverEstablish]
  · intro bufs io; rfl
  · intro bufs io; rfl
  · intro led bufs io; rfl
  · intro led bufs io; rfl
  · intro bufs io envs
    simp [clientRun, clientIter, clientEstablish]
  · intro bufs io envs
    simp [clientRun, clientIter, clientEstablish]
  · intro led bufs io envs
    simp [serverRun, serverIter, serverEstablish]
  · intro led bufs io envs
    simp [serverRun, serverIter, serverEstablish]

/-- C3 counterexample: the claim says a join failure with status below
16 makes the indicator toggle.  The code instead executes
`control.gpio_set(0, false)`: starting from the indicator state the code
actually has there (the loop is entered right after
`control.gpio_set(0, false)`, so the indicator is off), a failed join
with status 0 leaves the indicator off, whereas a toggle would turn it
on. -/
theorem c3_counterexample :
    gpioAfter false (joinAttempt (.err 0)).1 = false ∧
    (joinAttempt (.err 0)).1 = [Event.gpioSet false, Event.log .joinFailed] := by
  exact ⟨rfl, rfl⟩

/-- C3 amended: for every join-failure status `s`, if `s < 16` the
indicator is set to off (not toggled) and the failure is logged; if
`s ≥ 16` nothing is emitted; in both cases the loop goes on to the rest
of the script, and the loop exits exactly when some attempt succeeds. -/
theorem c3_amended_join_policy :
    (∀ s, joinAttempt (.err s) =
      ((if s < 16 then [Event.gpioSet false, Event.log .joinFailed] else []), false)) ∧
    (∀ s rest, joinLoop (.err s :: rest) =
      ((joinAttempt (.err s)).1 ++ (joinLoop rest).1, (joinLoop rest).2)) ∧
    (∀ script, (joinLoop script).2 = true ↔ JoinResult.ok ∈ script) := by
  exact ⟨fun s => rfl, fun s rest => rfl, joinLoop_exits_iff⟩

/-- C4: a responder read that delivers a valid-text byte sequence of
length at most 4096 is echoed back verbatim — the write carries exactly
the received bytes — before any further read happens. -/
theorem c4_echo (scratch : List Nat) (b : Nat) (bs : List Nat) (w : WriteResult)
    (rest : List (ReadResult × WriteResult))
    (hv : utf8Valid (b :: bs) = true) (hlen : (b :: bs).length ≤ 4096) :
    (serverInner scratch ((.ok (b :: bs), w) :: rest)).events =
      Event.sockRead :: Event.log (.rxd (b :: bs)) :: Event.sockWrite (b :: bs) ::
        (match w with
         | .ok => (serverInner (overwrite scratch (b :: bs)) rest).events
         | .error => [Event.log .writeError, Event.log .connClosed]) := by
  have ht : List.take (bs.length + 1) (overwrite scratch (b :: bs)) = b :: bs := by
    simpa using overwrite_take scratch (b :: bs)
  cases w <;> simp [serverInner, ht, hv]

/-- C4 witness: the bytes of `Hello` are valid text of length 5 and are
echoed back verbatim. -/
theorem c4_echo_witness :
    utf8Valid helloBytes = true ∧ helloBytes.length ≤ 4096 ∧
    (serverInner [] [(.ok helloBytes, .ok)]).events =
      [Event.sockRead, Event.log (.rxd helloBytes), Event.sockWrite helloBytes] := by
  refine ⟨by decide, by decide, ?_⟩
  have h := c4_echo [] 72 [101, 108, 108, 111] .ok [] (by decide) (by decide)
  simpa [helloBytes, serverInner] using h

/-- C5: a received byte sequence that is not valid UTF-8 makes the
decode step panic (process abort) in both the initiator and the
responder exchange loops — it is not surfaced as a recoverable error. -/
theorem c5_decode_panics (s1 s2 : List Nat) (b : Nat) (bs : List Nat) (w : WriteResult)
    (rest1 : List (WriteResult × ReadResult)) (rest2 : List (ReadResult × WriteResult))
    (hinv : utf8Valid (b :: bs) = false) :
    (clientInner s1 ((.ok, .ok (b :: bs)) :: rest1)).ended = .panicked ∧
    (serverInner s2 ((.ok (b :: bs), w) :: rest2)).ended = .panicked := by
  have ht1 : List.take (bs.length + 1) (overwrite s1 (b :: bs)) = b :: bs := by
    simpa using overwrite_take s1 (b :: bs)
  have ht2 : List.take (bs.length + 1) (overwrite s2 (b :: bs)) = b :: bs := by
    simpa using overwrite_take s2 (b :: bs)
  constructor
  · simp [clientInner, ht1, hinv]
  · cases w <;> simp [serverInner, ht2, hinv]

/-- C5 witness: the single byte 0xFF is not valid UTF-8 and crashes both
exchange loops. -/
theorem c5_decode_panics_witness :
    utf8Valid [255] = false ∧
    (clientInner [] [(.ok, .ok [255])]).ended = .panicked ∧
    (serverInner [] [(.ok [255], .ok)]).ended = .panicked := by
  have h := c5_decode_panics [] [] 255 [] .ok [] [] (by decide)
  exact ⟨by decide, h.1, h.2⟩

/-- The initiator's exchange loop performs every socket operation with
the timeout still armed at 5000 ms (it never re-arms or disarms it). -/
theorem clientInner_armed (io : List (WriteResult × ReadResult)) :
    ∀ scratch, armedBefore (some 5000) (clientInner scratch io).events = true := by
  induction io with
  | nil => intro scratch; simp [clientInner, armedBefore]
  | cons p rest ih =>
    intro scratch
    obtain ⟨w, r⟩ := p
    cases w with
    | error => simp [clientInner, armedBefore, isIoEv]
    | ok =>
      cases r with
      | error => simp [clientInner, armedBefore, isIoEv]
      | ok data =>
        cases data with
        | nil => simp [clientInner, armedBefore, isIoEv]
        | cons b bs =>
          by_cases h : utf8Valid (List.take (bs.length + 1) (overwrite scratch (b :: bs))) = true
          · simp [clientInner, h, armedBefore, isIoEv, ih]
          · simp [clientInner, h, armedBefore, isIoEv]

/-- The responder's exchange loop performs every socket operation with
the timeout still armed at 5000 ms (it never re-arms or disarms it). -/
theorem serverInner_armed (io : List (ReadResult × WriteResult)) :
    ∀ scratch, armedBefore (some 5000) (serverInner scratch io).events = true := by
  induction io with
  | nil => intro scratch; simp [serverInner, armedBefore]
  | cons p rest ih =>
    intro scratch
    obtain ⟨r, w⟩ := p
    cases r with
    | error => simp [serverInner, armedBefore, isIoEv]
    | ok data =>
      cases data with
      | nil => simp [serverInner, armedBefore, isIoEv]
      | cons b bs =>
        by_cases h : utf8Valid (List.take (bs.length + 1) (overwrite scratch (b :: bs))) = true
        · cases w <;> simp [serverInner, h, armedBefore, isIoEv, ih]
        · simp [serverInner, h, armedBefore, isIoEv]

/-- The responder's exchange loop never writes the indicator. -/
theorem serverInner_no_gpio (io : List (ReadResult × WriteResult)) :
    ∀ scratch v, Event.gpioSet v ∉ (serverInner scratch io).events := by
  induction io with
  | nil => intro scratch v; simp [serverInner]
  | cons p rest ih =>
    intro scratch v
    obtain ⟨r, w⟩ := p
    cases r with
    | error => simp [serverInner]
    | ok data =>
      cases data with
      | nil => simp [serverInner]
      | cons b bs =>
        by_cases h : utf8Valid (List.take (bs.length + 1) (overwrite scratch (b :: bs))) = true
        · cases w <;> simp [serverInner, h, ih]
        · simp [serverInner, h]

/-- C2: on establish success both nodes arm the 5000 ms idle timeout
immediately (`set_timeout` is the very next effect after the successful
connect/accept, before any read or write), so every socket operation in
the whole iteration trace runs with the timeout armed at 5000 ms; on an
establish failure or timeout no timeout is ever armed in the
iteration. -/
theorem c2_idle_timeout_armed :
    (∀ bufs io, armedBefore none (clientIter bufs .success io).events = true) ∧
    (∀ led bufs io, armedBefore none (serverIter led bufs .success io).events = true) ∧
    ((clientEstablish .success).1 =
      [Event.setSockTimeout 5000, Event.log .connectedToEndpoint]) ∧
    (∀ led, (serverEstablish led .success).events =
      [Event.setSockTimeout 5000, Event.log .receivedConnection, Event.gpioSet true]) ∧
    (∀ bufs io ms, Event.setSockTimeout ms ∉ (clientIter bufs .timeout io).events) ∧
    (∀ bufs io ms, Event.setSockTimeout ms ∉ (clientIter bufs .failure io).events) ∧
    (∀ led bufs io ms, Event.setSockTimeout ms ∉ (serverIter led bufs .timeout io).events) ∧
    (∀ led bufs io ms, Event.setSockTimeout ms ∉ (serverIter led bufs .failure io).events) := by
  refine ⟨?_, ?_, rfl, fun led => rfl, ?_, ?_, ?_, ?_⟩
  · intro bufs io
    simpa [clientIter, clientEstablish, armedBefore, isIoEv] using clientInner_armed io bufs.scratch
  · intro led bufs io
    simpa [serverIter, serverEstablish, armedBefore, isIoEv] using serverInner_armed io bufs.scratch
  · intro bufs io ms; simp [clientIter, clientEstablish]
  · intro bufs io ms; simp [clientIter, clientEstablish]
  · intro led bufs io ms; simp [serverIter, serverEstablish]
  · intro led bufs io ms; simp [serverIter, serverEstablish]

/-- C6: a zero-length read terminates the session without an error: the
inner loop logs the EOF and breaks (`broke`, not a panic and not an
error value), the outer loop goes on to the next iteration, and every
iteration starts by constructing a fresh socket. -/
theorem c6_eof_terminates_session :
    (∀ scratch rest, clientInner scratch ((WriteResult.ok, ReadResult.ok []) :: rest) =
      ⟨[Event.sockWrite helloBytes, Event.sockRead, Event.log .readEof], scratch, .broke⟩) ∧
    (∀ scratch w rest, serverInner scratch ((ReadResult.ok [], w) :: rest) =
      ⟨[Event.sockRead, Event.log .readEof], scratch, .broke⟩) ∧
    (∀ bufs io envs,
      clientRun bufs (⟨.success, (WriteResult.ok, ReadResult.ok []) :: io⟩ :: envs) =
        ((clientIter bufs .success ((WriteResult.ok, ReadResult.ok []) :: io)).events ++
           (clientRun bufs envs).1, (clientRun bufs envs).2)) ∧
    (∀ led bufs io envs,
      serverRun led bufs (⟨.success, (ReadResult.ok [], WriteResult.ok) :: io⟩ :: envs) =
        ((serverIter led bufs .success ((ReadResult.ok [], WriteResult.ok) :: io)).events ++
           (serverRun led bufs envs).1, (serverRun led bufs envs).2)) ∧
    (∀ bufs est io, ∃ t, (clientIter bufs est io).events = Event.newSocket :: t) ∧
    (∀ led bufs est io, ∃ t, (serverIter led bufs est io).events = Event.newSocket :: t) := by
  refine ⟨fun scratch rest => rfl, ?_, ?_, ?_, ?_, ?_⟩
  · intro scratch w rest; rfl
  · intro bufs io envs
    simp [clientRun, clientIter, clientEstablish, clientInner]
  · intro led bufs io envs
    simp [serverRun, serverIter, serverEstablish, serverInner]
  · intro bufs est io
    cases est <;> exact ⟨_, rfl⟩
  · intro led bufs est io
    cases est <;> exact ⟨_, rfl⟩

/-- Every iteration of the `connection` task body prints exactly one
`About to connect...` line, i.e. makes exactly one association
attempt. -/
theorem connectionBody_one_attempt (ws : WifiSt) (st : Bool) (cr : ConnResult) :
    (connectionBody ws st cr).1.countP isAttempt = 1 := by
  cases ws <;> cases st <;> cases cr <;> decide

/-- The `connection` task makes one association attempt per scripted
iteration, for the whole script — it never exits early. -/
theorem connectionRun_attempts (script : List (WifiSt × ConnResult)) :
    ∀ st, (connectionRun st script).countP isAttempt = script.length := by
  induction script with
  | nil => intro st; rfl
  | cons p rest ih =>
    intro st
    obtain ⟨ws, cr⟩ := p
    simp [connectionRun, List.countP_append, connectionBody_one_attempt, ih]
    omega

/-- C7 counterexample: the claim says both node variants re-establish
the association after any disconnect and never terminate.  The
responder's join loop exits after its first success: on the concrete
script [ok, err 0] it reports itself exited and its trace is only the
success's indicator write — the later scripted attempt is never
processed, so no association attempt can follow a post-success
disconnect. -/
theorem c7_counterexample :
    (joinLoop [JoinResult.ok, JoinResult.err 0]).2 = true ∧
    (joinLoop [JoinResult.ok, JoinResult.err 0]).1 = [Event.gpioSet true] := by
  exact ⟨rfl, rfl⟩

/-- C7 amended: the initiator's link task never terminates — every
iteration of its body (one per scripted element, with no exit path)
makes exactly one association attempt, and after a disconnect wait the
same iteration goes on to attempt association; the responder's join loop
retries with no retry cap until the first success and then terminates,
processing nothing further. -/
theorem c7_amended_link_management :
    (∀ ws st cr, Event.log .aboutToConnect ∈ (connectionBody ws st cr).1) ∧
    (∀ ws st cr, (connectionBody ws st cr).2 = true) ∧
    (∀ st script, (connectionRun st script).countP isAttempt = script.length) ∧
    (∀ st cr, ∃ l, (connectionBody .staConnected st cr).1 =
        Event.waitDisconnect :: Event.sleep 5000 :: l ∧ Event.log .aboutToConnect ∈ l) ∧
    (∀ script, (joinLoop script).2 = true ↔ JoinResult.ok ∈ script) ∧
    (∀ rest, joinLoop (JoinResult.ok :: rest) = ([Event.gpioSet true], true)) := by
  refine ⟨?_, ?_, fun st script => connectionRun_attempts script st, ?_, joinLoop_exits_iff, ?_⟩
  · intro ws st cr
    cases ws <;> cases st <;> cases cr <;> decide
  · intro ws st cr; rfl
  · intro st cr
    cases st <;> cases cr <;> exact ⟨_, rfl, by decide⟩
  · intro rest; rfl

/-- C8: a connect/accept attempt abandoned at the 5000 ms bound leaves
the once-allocated buffers exactly as they were, so the socket the next
iteration builds from them equals the one that would be built had the
attempt never happened, and a newly built socket has no readable or
queued content and no timeout armed — no residual state, whatever bytes
the reused buffers still hold; the outer loop continues on the very same
buffers. -/
theorem c8_no_residual_state :
    (∀ bufs io, (clientIter bufs .timeout io).bufs = bufs) ∧
    (∀ led bufs io, (serverIter led bufs .timeout io).bufs = bufs) ∧
    (∀ bufs io,
      Socket.new (clientIter bufs .timeout io).bufs.rx (clientIter bufs .timeout io).bufs.tx =
        Socket.new bufs.rx bufs.tx) ∧
    (∀ led bufs io,
      Socket.new (serverIter led bufs .timeout io).bufs.rx
          (serverIter led bufs .timeout io).bufs.tx =
        Socket.new bufs.rx bufs.tx) ∧
    (∀ rx tx, (Socket.new rx tx).rxAvail = 0 ∧ (Socket.new rx tx).txQueued = 0 ∧
      (Socket.new rx tx).timeoutMs = none) ∧
    (∀ bufs io envs, clientRun bufs (⟨.timeout, io⟩ :: envs) =
      ((clientIter bufs .timeout io).events ++ (clientRun bufs envs).1,
       (clientRun bufs envs).2)) ∧
    (∀ led bufs io envs, serverRun led bufs (⟨.timeout, io⟩ :: envs) =
      ((serverIter led bufs .timeout io).events ++ (serverRun (!led) bufs envs).1,
       (serverRun (!led) bufs envs).2)) := by
  refine ⟨fun bufs io => rfl, fun led bufs io => rfl, fun bufs io => rfl,
    fun led bufs io => rfl, fun rx tx => ⟨rfl, rfl, rfl⟩, ?_, ?_⟩
  · intro bufs io envs
    simp [clientRun, clientIter, clientEstablish]
  · intro led bufs io envs
    simp [serverRun, serverIter, serverEstablish]

/-- The DHCP wait loop, started at poll `t0` against a stack whose
readiness predicate is false for the first `N` polls from `t0` and true
at the `N`-th, sleeps exactly `N * 100` milliseconds and stops at poll
`t0 + N`. -/
theorem waitForConfig_spec (s : NetStack) :
    ∀ (N t0 fuel : Nat), (∀ k, k < N → s.isConfigUp (t0 + k) = false) →
      s.isConfigUp (t0 + N) = true → N < fuel →
      waitForConfig s fuel t0 = some (N * 100, t0 + N) := by
  intro N
  induction N with
  | zero =>
    intro t0 fuel h0 hN hf
    match fuel, hf with
    | f + 1, _ =>
      simp only [waitForConfig]
      rw [if_pos (by simpa using hN)]
      simp
  | succ n ih =>
    intro t0 fuel h0 hN hf
    match fuel, hf with
    | f + 1, hf =>
      have hup : s.isConfigUp t0 = false := by simpa using h0 0 (Nat.succ_pos n)
      have ihr := ih (t0 + 1) f
        (fun k hk => by
          have h := h0 (k + 1) (Nat.succ_lt_succ hk)
          have e : t0 + (k + 1) = t0 + 1 + k := by omega
          rwa [e] at h)
        (by
          have e : t0 + (n + 1) = t0 + 1 + n := by omega
          rwa [e] at hN)
        (Nat.lt_of_succ_lt_succ hf)
      simp only [waitForConfig]
      rw [if_neg (by simp [hup]), ihr]
      have e1 : n * 100 + 100 = (n + 1) * 100 := by ring
      have e2 : t0 + 1 + n = t0 + (n + 1) := by omega
      simp [e1, e2]

/-- C9: when the readiness predicate is false for the first `N` polls
and then true, the DHCP wait sleeps exactly `N` times 100 ms before
returning, and the configuration query made right after returns a
populated snapshot, not `none`. -/
theorem c9_config_wait (s : NetStack) (N fuel : Nat)
    (h0 : ∀ k, k < N → s.isConfigUp k = false)
    (hN : s.isConfigUp N = true) (hf : N < fuel) :
    waitForConfig s fuel 0 = some (N * 100, N) ∧ s.configV4 N ≠ none := by
  constructor
  · have h := waitForConfig_spec s N 0 fuel (by simpa using h0) (by simpa using hN) hf
    simpa using h
  · have h : (s.cfg N).isSome = true := hN
    simpa [NetStack.configV4, Option.isSome_iff_ne_none] using h

/-- C9 witness: a stack whose configuration comes up at the third poll
makes the wait sleep exactly 200 ms, and the query then returns a
populated snapshot. -/
theorem c9_config_wait_witness :
    waitForConfig exStack 5 0 = some (200, 2) ∧ exStack.configV4 2 ≠ none := by
  have h := c9_config_wait exStack 2 5
    (by decide) (by decide) (by decide)
  simpa using h

/-- C10: implicit indicator invariant of the responder — a successful
join immediately sets the indicator on, a successful accept sets the
indicator on as the last effect before the exchange phase, and the
exchange loop never writes the indicator, so throughout the exchange
phase the indicator was last set on at establish time. -/
theorem c10_accept_sets_indicator_on :
    (∀ rest, joinLoop (JoinResult.ok :: rest) = ([Event.gpioSet true], true)) ∧
    (∀ led bufs io, (serverIter led bufs .success io).events =
      [Event.newSocket, Event.log .addrInfo, Event.log .listening,
       Event.setSockTimeout 5000, Event.log .receivedConnection, Event.gpioSet true] ++
        (serverInner bufs.scratch io).events) ∧
    (∀ io scratch v, Event.gpioSet v ∉ (serverInner scratch io).events) ∧
    (∀ led, gpioAfter led
      [Event.newSocket, Event.log .addrInfo, Event.log .listening,
       Event.setSockTimeout 5000, Event.log .receivedConnection, Event.gpioSet true] = true) := by
  refine ⟨fun rest => rfl, fun led bufs io => rfl,
    fun io scratch v => serverInner_no_gpio io scratch v, fun led => rfl⟩

end TcpComm
